import Mathlib

/-!
Verification of the reavm2 ETL pipeline (src/etl.py, src/utility.py).

This file gives a shallow embedding of the record validation, deduplication,
aggregation and period-iteration logic of the pipeline, and settles the
claims C1..C10 about it.  Python dictionaries are modelled as association
lists (first-match lookup, in-place update, append on fresh keys — exactly
the CPython insertion-order semantics), Python ints as `Int`, Python floats
as `Rat` (no claim depends on binary rounding), and raised exceptions as
`Except` / explicit outcome types.  A raised `u.InputError` is distinguished
from an uncaught exception (`ValueError`, `TypeError`, `KeyError`), because
the per-stage read loops catch only `u.InputError`.
-/

/-- Decidable equality for `Except`, needed to settle concrete evaluations
of the fallible operations by `decide`. -/
instance {ε α : Type} [DecidableEq ε] [DecidableEq α] : DecidableEq (Except ε α) := fun a b =>
  match a, b with
  | .ok x, .ok y =>
    if h : x = y then .isTrue (by rw [h]) else .isFalse (by intro hc; cases hc; exact h rfl)
  | .error x, .error y =>
    if h : x = y then .isTrue (by rw [h]) else .isFalse (by intro hc; cases hc; exact h rfl)
  | .ok _, .error _ => .isFalse (by intro hc; cases hc)
  | .error _, .ok _ => .isFalse (by intro hc; cases hc)

/- The library marks rational arithmetic irreducible; the concrete
evaluations below need it to reduce. -/
attribute [local semireducible] Rat.add Rat.mul Rat.sub Rat.inv

/-! ## Python primitive models -/

/-- Characters Python's `int()` / `float()` strip from both ends of a string. -/
def isPyWs (c : Char) : Bool :=
  c = ' ' || c = Char.ofNat 9 || c = Char.ofNat 10 || c = Char.ofNat 13 ||
  c = Char.ofNat 11 || c = Char.ofNat 12

/-- Decimal digit test. -/
def isDigitCh (c : Char) : Bool := '0' ≤ c && c ≤ '9'

/-- Numeric value of a digit character. -/
def digitVal (c : Char) : Nat := c.toNat - '0'.toNat

/-- Strip Python whitespace from both ends of a character list. -/
def stripWsChars (cs : List Char) : List Char :=
  ((cs.dropWhile isPyWs).reverse.dropWhile isPyWs).reverse

/-- True when no two adjacent characters are both underscores. -/
def noDoubleUnderscore (cs : List Char) : Bool :=
  (cs.zip cs.tail).all (fun p => !(p.1 = '_' && p.2 = '_'))

/-- Value of a digit run with Python's underscore-grouping rule: nonempty,
every character a digit or `_`, first and last characters digits, and no two
adjacent underscores (so each underscore sits between digits).  This is the
rule CPython applies to the digit part of `int()` and `float()` inputs. -/
def groupedDigitsVal (cs : List Char) : Option Nat :=
  if !cs.isEmpty && cs.all (fun c => isDigitCh c || c = '_') &&
     isDigitCh (cs.headD ' ') && isDigitCh (cs.getLastD ' ') &&
     noDoubleUnderscore cs
  then some ((cs.filter isDigitCh).foldl (fun a c => a * 10 + digitVal c) 0)
  else none

/-- Model of Python `int(s)` on the characters of a decimal string: strip
whitespace, optional single sign, then a digit run (with underscore
grouping).  `none` models a raised `ValueError`. -/
def pyParseIntChars (chars : List Char) : Option Int :=
  match stripWsChars chars with
  | '-' :: rest => (groupedDigitsVal rest).map (fun n => -(n : Int))
  | '+' :: rest => (groupedDigitsVal rest).map (fun n => (n : Int))
  | cs => (groupedDigitsVal cs).map (fun n => (n : Int))

/-- Model of Python `int(s)` on a decimal string. -/
def pyParseInt (s : String) : Option Int := pyParseIntChars s.toList

/-- Decimal core of Python `float(s)`: `digits`, `digits.`, `digits.digits`
or `.digits` (underscore grouping inside each digit run).  The data fields
this pipeline parses are plain decimal strings, so exponent, `inf` and `nan`
forms are not modelled. -/
def decCore (cs : List Char) : Option Rat :=
  match cs.splitOn '.' with
  | [w] => (groupedDigitsVal w).map (fun n => (n : Rat))
  | [w, f] =>
    if w.isEmpty && f.isEmpty then none
    else
      let wv : Option Nat := if w.isEmpty then some 0 else groupedDigitsVal w
      let fv : Option (Nat × Nat) :=
        if f.isEmpty then some (0, 0)
        else (groupedDigitsVal f).map (fun n => (n, (f.filter isDigitCh).length))
      match wv, fv with
      | some a, some (b, k) => some (mkRat ((a * 10 ^ k + b : Nat) : Int) (10 ^ k))
      | _, _ => none
  | _ => none

/-- Model of Python `float(s)` on a decimal string.  `none` models a raised
`ValueError`. -/
def pyParseFloat (s : String) : Option Rat :=
  match stripWsChars s.toList with
  | '-' :: rest => (decCore rest).map (fun q => -q)
  | '+' :: rest => decCore rest
  | cs => decCore cs

/-- Model of Python `s.replace(c, "")`: remove every occurrence of `c`. -/
def pyRemove (s : String) (c : Char) : String :=
  (s.toList.filter (fun x => x ≠ c)).asString

/-- Model of the Python slice `s[a:b]` for `0 ≤ a ≤ b`. -/
def pySlice (s : String) (a b : Nat) : String :=
  ((s.toList.drop a).take (b - a)).asString

/-- Model of the Python slice `s[a:]`. -/
def pySliceFrom (s : String) (a : Nat) : String :=
  (s.toList.drop a).asString

/-- Split a character list on a separator character, keeping empty groups —
the semantics of Python `s.split(sep)` for a one-character separator. -/
def splitChar (sep : Char) : List Char → List (List Char)
  | [] => [[]]
  | c :: rest =>
    if c = sep then [] :: splitChar sep rest
    else match splitChar sep rest with
      | [] => [[c]]
      | g :: gs => (c :: g) :: gs

/-! ## Association lists: the model of Python dicts

CPython dicts preserve insertion order; assigning to an existing key keeps
its position, assigning to a fresh key appends.  `lookupA` is `d.get`,
`upsertA` is `d[k] = v`. -/

/-- First-match lookup in an association list (Python `d[k]` / `d.get(k)`). -/
def lookupA {κ ν : Type} [DecidableEq κ] : List (κ × ν) → κ → Option ν
  | [], _ => none
  | (k, v) :: rest, key => if k = key then some v else lookupA rest key

/-- In-place update or append (Python `d[k] = v`). -/
def upsertA {κ ν : Type} [DecidableEq κ] : List (κ × ν) → κ → ν → List (κ × ν)
  | [], key, val => [(key, val)]
  | (k, v) :: rest, key, val =>
    if k = key then (k, val) :: rest else (k, v) :: upsertA rest key val

/-- Keys of an association list, in insertion order. -/
def keysA {κ ν : Type} (l : List (κ × ν)) : List κ := l.map Prod.fst

/-- Left-biased choice on `Option` (used to state lookup lemmas). -/
def oor {α : Type} : Option α → Option α → Option α
  | some a, _ => some a
  | none, b => b

/-- Value of the last pair carrying a given key, `none` when the key is
absent.  This is the "last write" of the key in a record stream. -/
def lastOf {κ ν : Type} [DecidableEq κ] : List (κ × ν) → κ → Option ν
  | [], _ => none
  | (k, v) :: rest, key => oor (lastOf rest key) (if k = key then some v else none)

/-- Value of the first pair carrying a given key. -/
def firstOf {κ ν : Type} [DecidableEq κ] : List (κ × ν) → κ → Option ν
  | [], _ => none
  | (k, v) :: rest, key => if k = key then some v else firstOf rest key

/-- Fold a record stream into a dict, skipping records the extractor rejects
and writing (insert-or-overwrite) the extracted key/value otherwise.  This is
the shape of every read loop in etl.py that catches `u.InputError` and
continues. -/
def runUpsert {ρ κ ν : Type} [DecidableEq κ] (f : ρ → Option (κ × ν))
    (rows : List ρ) : List (κ × ν) :=
  rows.foldl (fun st r => match f r with
    | some (k, v) => upsertA st k v
    | none => st) []

/-! ## utility.py -/

/-- A Python `datetime.date`: `datetime.date(y, m, d)` validates
`1 ≤ y ≤ 9999`, `1 ≤ m ≤ 12` and `1 ≤ d ≤` days in the month. -/
structure PyDate where
  year : Nat
  month : Nat
  day : Nat
  deriving DecidableEq, Repr

/-- Gregorian leap-year rule. -/
def isLeap (y : Nat) : Bool := (y % 4 = 0 && y % 100 ≠ 0) || y % 400 = 0

/-- Days in a month. -/
def daysInMonth (y m : Nat) : Nat :=
  if m = 1 || m = 3 || m = 5 || m = 7 || m = 8 || m = 10 || m = 12 then 31
  else if m = 4 || m = 6 || m = 9 || m = 11 then 30
  else if m = 2 then (if isLeap y then 29 else 28)
  else 0

/-- `datetime.date(y, m, d)`: `none` models the raised `ValueError` for an
out-of-calendar date. -/
def mkDate (y m d : Int) : Option PyDate :=
  if 1 ≤ y && y ≤ 9999 && 1 ≤ m && m ≤ 12 && 1 ≤ d && d ≤ (daysInMonth y.toNat m.toNat : Int)
  then some ⟨y.toNat, m.toNat, d.toNat⟩
  else none

/-- `datetime.date` ordering (lexicographic on year, month, day). -/
def dateLt (a b : PyDate) : Bool :=
  a.year < b.year ||
  (a.year = b.year && (a.month < b.month ||
    (a.month = b.month && a.day < b.day)))

/-- utility.as_date (src/utility.py lines 38-52): parse `YYYY-MM-DD` (day
string `00` mapped to day 1) or `YYYYMMDD` (parsed day `≤ 0` mapped to 1);
returns a single bare date.  `none` models any raised exception (bad split
arity, int() failure, out-of-calendar date). -/
def as_date (s : String) : Option PyDate :=
  if s.toList.contains '-' then
    match splitChar '-' s.toList with
    | [ys, ms, ds] =>
      match pyParseIntChars ys, pyParseIntChars ms,
            (if ds = ['0', '0'] then some (1 : Int) else pyParseIntChars ds) with
      | some y, some m, some d => mkDate y m d
      | _, _, _ => none
    | _ => none
  else
    match pyParseInt (pySlice s 6 8) with
    | none => none
    | some day =>
      match pyParseInt (pySlice s 0 4), pyParseInt (pySlice s 4 6) with
      | some y, some m => mkDate y m (if day > 0 then day else 1)
      | _, _ => none

/-- etl.py unpacks the result of `u.as_date` as a pair — `sale_date, e =
u.as_date(...)` (line 199) and `date, err = u.as_date(...)` (lines
1004-1005) — and indexes it (`u.as_date(...)[0]`, line 148).  The `as_date`
in src/utility.py returns a bare `datetime.date`, which is neither iterable
nor subscriptable, so every such use raises `TypeError` whatever the input
string is.  The pair-producing view of `as_date` therefore never yields a
value. -/
def as_date_unpack2 (_s : String) : Option (PyDate × String) := none

/-- The two failure conditions of utility.best_apn.  Both are raised as bare
`ValueError`s, but from two distinct raise sites: the first fires exactly
when both inputs are empty, the second (reached after a `pdb.set_trace`
breakpoint left in the source) covers every other unparseable pair. -/
inductive ApnFail where
  | noIdentifierPresent
  | unparseable
  deriving DecidableEq, Repr

/-- The separator-stripping applied to the unformatted APN:
`unformatted.replace(' ', '').replace('_', '').replace('-', '')`. -/
def stripApnSeps (u : String) : String :=
  pyRemove (pyRemove (pyRemove u ' ') '_') '-'

/-- utility.best_apn (src/utility.py lines 55-77): prefer the unformatted
value with space/underscore/hyphen stripped parsed as int; fall back to the
formatted value with hyphens stripped; distinguish the both-empty failure
from the generic unparseable failure. -/
def best_apn (formatted unformatted : String) : Except ApnFail Int :=
  match pyParseInt (stripApnSeps unformatted) with
  | some n => .ok n
  | none =>
    match pyParseInt (pyRemove formatted '-') with
    | some n => .ok n
    | none =>
      if formatted = "" && unformatted = "" then .error .noIdentifierPresent
      else .error .unparseable

/-! ## etl.py: Deed validator / deduplicator

`Deed.__init__` (src/etl.py lines 139-160) resolves six code values from the
code registry, reads the census cutoff date and the sale-amount ceiling from
the configuration, and starts with an empty `sale_amounts` dict keyed by
`(apn, sale_date)`.  Note that line 148 evaluates
`u.as_date(config['date_census_became_known'])[0]`, which raises `TypeError`
(a bare `datetime.date` is not subscriptable); the fields are modelled here
as given so that `accumulate` can be analysed. -/

structure DeedConfig where
  codeSFR : String
  codeGrantDeed : String
  codeArmsLength : String
  codeResale : String
  codeNewConstruction : String
  codeSaleFullPrice : String
  dateCensusBecameKnown : PyDate
  maxSaleAmount : Rat

/-- The fields of a raw deed record read by `Deed.accumulate`; a
`csv.DictReader` row maps every header to a string. -/
structure DeedRow where
  propertyIndicatorCode : String
  documentTypeCode : String
  priCatCode : String
  multiApnFlagCode : String
  multiApnCount : String
  transactionTypeCode : String
  saleCode : String
  saleDate : String
  apnFormatted : String
  apnUnformatted : String
  saleAmount : String
  deriving Repr

/-- Key of the deed dedup dict: `(apn, sale_date)`. -/
abbrev DeedKey := Int × PyDate

/-- The `Deed.sale_amounts` dict. -/
abbrev SaleAmounts := List (DeedKey × Rat)

/-- Outcome of one `Deed.accumulate` call: the mutated `sale_amounts` dict, a
raised `u.InputError` (caught and tallied by the read loop in `read_deeds`),
or an uncaught exception that escapes the read loop. -/
inductive DeedStep where
  | accumulated (sa : SaleAmounts)
  | inputError (reason : String)
  | uncaught (msg : String)
  deriving DecidableEq, Repr

/-- The final step of `Deed.accumulate` (src/etl.py lines 225-232): if the
`(apn, sale_date)` key is already present with a different amount, raise
`u.InputError("multiple deed sale amounts", ...)` and leave the dict
unchanged; if present with the same amount, keep the existing entry; else
insert. -/
def deedRecordDedup (sa : SaleAmounts) (key : DeedKey) (saleAmount : Rat) : DeedStep :=
  match lookupA sa key with
  | some existing =>
    if existing ≠ saleAmount then .inputError "multiple deed sale amounts"
    else .accumulated sa
  | none => .accumulated (upsertA sa key saleAmount)

namespace Deed

/-- Deed.accumulate (src/etl.py lines 162-232), translated check for check in
source order.  Two evaluation-order points are modelled exactly:
`int(row['MULTI APN COUNT'])` (line 176) and `int(self.code_resale)` /
`int(self.code_new_construction)` (line 184) are not wrapped in any
try/except, so their `ValueError`s are uncaught; and line 199 unpacks
`u.as_date(row['SALE DATE'])` as a pair, which raises `TypeError` for every
input (see `as_date_unpack2`) and is swallowed by the surrounding
`except Exception`, so every record reaching the sale-date step is rejected
with `u.InputError("invalid SALE DATE", ...)`. -/
def accumulate (cfg : DeedConfig) (sa : SaleAmounts) (row : DeedRow) : DeedStep :=
  if row.propertyIndicatorCode ≠ cfg.codeSFR then
    .inputError "not a single family residence"
  else if row.documentTypeCode ≠ cfg.codeGrantDeed then
    .inputError "deed not a grant deed"
  else if row.priCatCode ≠ cfg.codeArmsLength then
    .inputError "deed not an arms-length transaction"
  else if row.multiApnFlagCode ≠ "" then
    .inputError "deed has multipe APNs"
  else match pyParseInt row.multiApnCount with
  | none => .uncaught "ValueError: int() on MULTI APN COUNT"
  | some cnt =>
    if cnt > 1 then .inputError "deed has multipe APNs"
    else match pyParseInt row.transactionTypeCode with
    | none => .inputError "TRANSACTION TYPE CODE not an int"
    | some ttc =>
      match pyParseInt cfg.codeResale, pyParseInt cfg.codeNewConstruction with
      | some codeResale, some codeNewConstruction =>
        if ttc = codeResale || ttc = codeNewConstruction then
          if row.saleCode = cfg.codeSaleFullPrice then
            match as_date_unpack2 row.saleDate with
            | none => .inputError "invalid SALE DATE"
            | some (saleDate, _e) =>
              if dateLt saleDate cfg.dateCensusBecameKnown then
                .inputError "sale date before date census became known"
              else match best_apn row.apnFormatted row.apnUnformatted with
              | .error _ => .inputError "invalid APN"
              | .ok apn =>
                match pyParseFloat row.saleAmount with
                | none => .inputError "invalid SALE AMOUNT"
                | some saleAmount =>
                  if saleAmount ≤ 0 then .inputError "SALE AMOUNT not positive"
                  else if saleAmount > cfg.maxSaleAmount then
                    .inputError "SALE AMOUNT exceed maximum sale amount"
                  else deedRecordDedup sa (apn, saleDate) saleAmount
          else .inputError "deed not full price"
        else .inputError "deed not resale nor new construction"
      | _, _ => .uncaught "ValueError: int() on a transaction type code"

end Deed

/-- The deduplication pass over the stream of records that reach the dedup
step (records that pass the ten validation predicates): `read_deeds`
(src/etl.py lines 304-314) catches each `u.InputError` — in particular
"multiple deed sale amounts" — tallies it and continues with the unchanged
dict. -/
def dedupStep (sa : SaleAmounts) (r : DeedKey × Rat) : SaleAmounts :=
  match deedRecordDedup sa r.1 r.2 with
  | .accumulated sa1 => sa1
  | _ => sa

/-- The deduplication pass folded over a record stream, starting from the
empty `sale_amounts` dict built in `Deed.__init__`. -/
def dedupRun (recs : List (DeedKey × Rat)) : SaleAmounts :=
  recs.foldl dedupStep []

/-- The rows `Deed.create_table` (src/etl.py lines 254-264) emits for a given
key: one per surviving `sale_amounts` entry with that key. -/
def deedRowsFor (k : DeedKey) (sa : SaleAmounts) : List Rat :=
  (sa.filter (fun e => e.1 = k)).map (fun e => e.2)

/-- The ten ordered validation predicates of spec section 4.2.  Modelled from
the spec wording (not from the code) purely for comparison against
`Deed.accumulate`: predicates 1-6 compare coded fields, predicate 7 parses
the sale date via `as_date` (day 0 normalized to 1 inside it), predicate 8
compares against the cutoff, predicate 9 resolves the parcel identifier,
predicate 10 bounds the sale amount. -/
def specDeedPassesAllTen (cfg : DeedConfig) (row : DeedRow) : Bool :=
  row.propertyIndicatorCode = cfg.codeSFR
  && row.documentTypeCode = cfg.codeGrantDeed
  && row.priCatCode = cfg.codeArmsLength
  && (row.multiApnFlagCode = "" &&
      (match pyParseInt row.multiApnCount with
       | some cnt => cnt ≤ 1
       | none => false))
  && (match pyParseInt row.transactionTypeCode,
            pyParseInt cfg.codeResale, pyParseInt cfg.codeNewConstruction with
      | some ttc, some r, some n => ttc = r || ttc = n
      | _, _, _ => false)
  && row.saleCode = cfg.codeSaleFullPrice
  && (match as_date row.saleDate with
      | some saleDate => !dateLt saleDate cfg.dateCensusBecameKnown
      | none => false)
  && (best_apn row.apnFormatted row.apnUnformatted).isOk
  && (match pyParseFloat row.saleAmount with
      | some amt => 0 < amt && amt ≤ cfg.maxSaleAmount
      | none => false)

/-- A deed configuration with concrete code values, used to evaluate the
validator on concrete records: SFR code "1", grant deed "G", arms length
"A", resale "1", new construction "3", full price "F", census cutoff
2000-04-01, sale-amount ceiling 10,000,000. -/
def c4cfg : DeedConfig :=
  { codeSFR := "1", codeGrantDeed := "G", codeArmsLength := "A",
    codeResale := "1", codeNewConstruction := "3", codeSaleFullPrice := "F",
    dateCensusBecameKnown := ⟨2000, 4, 1⟩, maxSaleAmount := 10000000 }

/-- A raw deed record every one of whose fields satisfies its validation
predicate under `c4cfg`: matching codes, empty multi-APN flag, count 1,
valid sale date 2005-03-15 after the cutoff, resolvable APN, positive
in-bounds sale amount. -/
def c4row : DeedRow :=
  { propertyIndicatorCode := "1", documentTypeCode := "G", priCatCode := "A",
    multiApnFlagCode := "", multiApnCount := "1", transactionTypeCode := "1",
    saleCode := "F", saleDate := "20050315", apnFormatted := "123-456-789",
    apnUnformatted := "123456789", saleAmount := "250000" }

/-! ## etl.py: code registry (read_codes, lookup_code) -/

/-- A row of a reference code file: the `CODE TABLE`, `VALUE` and
`DESCRIPTION` columns read by `read_codes`. -/
structure CodeRow where
  codeTable : String
  value : String
  description : String
  deriving DecidableEq, Repr

/-- An entry of the `codes_deeds` / `codes_taxrolls` SQLite table; the table
declares `PRIMARY KEY (code_table, value, description)`, so only an exact
triple duplicate violates the UNIQUE constraint. -/
abbrev CodeTriple := String × String × String

/-- The rows of a codes table, in insertion order. -/
abbrev CodesTable := List CodeTriple

/-- The fixed skip predicate of `read_codes` (src/etl.py lines 65-79): for
`codes_deeds`, drop the jurisdiction-inapplicable `DEEDC` /
`LIS PENDENS - NON CALIFORNIA` entry; for `codes_taxrolls`, drop nothing;
any other table name raises `ValueError` (modelled as `.error`). -/
def skip_code (tableName : String) (row : CodeRow) : Except String Bool :=
  if tableName = "codes_deeds" then
    .ok (row.codeTable = "DEEDC" && row.description = "LIS PENDENS - NON CALIFORNIA")
  else if tableName = "codes_taxrolls" then
    .ok false
  else
    .error "bad table_name"

/-- lookup_code (src/etl.py lines 42-58): scan the table for rows matching
`(code_table, description)`; zero matches raises `u.NotFoundError`, more
than one raises `u.NotUnique`, exactly one returns its value. -/
def lookup_code (table : CodesTable) (codeTable description : String) : Except String String :=
  match table.filter (fun t => t.1 = codeTable && t.2.2 = description) with
  | [] => .error "NotFoundError"
  | [t] => .ok t.2.1
  | _ => .error "NotUnique"

/-- One iteration of the insert loop of `read_codes` (src/etl.py lines
96-124), on the state (table rows, count of debugger traps).  A row the skip
predicate accepts is INSERTed; only an exact triple duplicate raises the
UNIQUE-constraint `sqlite3.IntegrityError`, in which case `lookup_code` is
consulted and an equal existing value is silently skipped while a differing
value prints "fix this problem" and enters `pdb.set_trace()` (counted here
as a trap) and then continues — no exception is raised.  Errors escaping
the loop (`ValueError` from a bad table name, `NotFoundError` / `NotUnique`
from `lookup_code` inside the handler) abort `read_codes`. -/
def read_codes_step (tableName : String) (st : CodesTable × Nat) (row : CodeRow) :
    Except String (CodesTable × Nat) :=
  match skip_code tableName row with
  | .error e => .error e
  | .ok true => .ok st
  | .ok false =>
    let triple : CodeTriple := (row.codeTable, row.value, row.description)
    if triple ∈ st.1 then
      match lookup_code st.1 row.codeTable row.description with
      | .ok existing =>
        if existing = row.value then .ok st
        else .ok (st.1, st.2 + 1)
      | .error e => .error e
    else
      .ok (st.1 ++ [triple], st.2)

/-- The insert loop of `read_codes` over the reference file rows: each row
is processed in order, and an error raised by a step aborts the loop (the
exception propagates out of `read_codes`). -/
def read_codes_loop (tableName : String) : CodesTable × Nat → List CodeRow →
    Except String (CodesTable × Nat)
  | st, [] => .ok st
  | st, row :: rest =>
    match read_codes_step tableName st row with
    | .ok st1 => read_codes_loop tableName st1 rest
    | .error e => .error e

/-- The whole insert loop of `read_codes`, starting from a freshly created
empty table. -/
def read_codes_run (tableName : String) (rows : List CodeRow) :
    Except String (CodesTable × Nat) :=
  read_codes_loop tableName ([], 0) rows

/-! ## etl.py: Neighborhood aggregator and Parcel feature extractor

Both consume the same taxroll record stream in one loop (`read_taxrolls`,
src/etl.py lines 736-751): per row, `neighborhood.accumulate` then
`parcel.accumulate`, with `u.InputError` caught (tallied, next record) and
every other exception escaping the loop. -/

/-- The fields of a raw taxroll record read by the two accumulators. -/
structure TaxrollRow where
  censusTract : String := ""
  propertyIndicatorCode : String := ""
  universalLandUseCode : String := ""
  landSquareFootage : String := ""
  apnFormatted : String := ""
  apnUnformatted : String := ""
  propertyCity : String := ""
  totalValueCalculated : String := ""
  livingSquareFeet : String := ""
  effectiveYearBuilt : String := ""
  bedrooms : String := ""
  totalRooms : String := ""
  totalBaths : String := ""
  fireplaceNumber : String := ""
  parkingSpaces : String := ""
  poolFlag : String := ""
  unitsNumber : String := ""
  deriving Repr

/-- The values of the `propn_kind_description` table in
`Neighborhood.__init__` (src/etl.py lines 350-374): the four final kinds
plus the three categories refined further by the land-use code. -/
inductive PropnKind where
  | residential
  | commercial
  | industrial
  | other
  | servicePublic
  | amusementRecreation
  | exempt
  deriving DecidableEq, Repr

/-- The kind tables built in `Neighborhood.__init__` by resolving the fixed
description tables through the code registry: `propn_kinds` maps a PROPN
code to its kind, `lusei_kinds` maps a LUSEI code to "school" or "park"
(`.get` default "not special"). -/
structure NbConfig where
  propnKinds : List (Int × PropnKind)
  luseiKinds : List (Int × String)

/-- `self.propn_skip = set([0])` (src/etl.py line 345). -/
def propn_skip : List Int := [0]

/-- `self.lusei_skip = set([999])` (src/etl.py line 346). -/
def lusei_skip : List Int := [999]

/-- A `collections.Counter` keyed by kind name: lookup defaults to 0,
`c[k] += n` updates in place or appends. -/
abbrev Counter := List (String × Int)

/-- Counter read with default 0. -/
def cget (c : Counter) (k : String) : Int := (lookupA c k).getD 0

/-- Counter update `c[k] += delta`. -/
def cadd (c : Counter) (k : String) (delta : Int) : Counter :=
  upsertA c k (cget c k + delta)

/-- Sum of all values of a Counter (the `total += v` loop of
`Neighborhood.create_table`). -/
def counterTotal (c : Counter) : Int := c.foldl (fun a e => a + e.2) 0

/-- The zero-initialized per-tract dict assigned to `parcel_count` for an
unseen tract (src/etl.py lines 412-421); note it happens before the
validation checks, so even rejected records create it. -/
def initTractCounter : Counter :=
  [("residential", 0), ("commercial", 0), ("industrial", 0), ("other", 0),
   ("total", 0), ("school", 0), ("park", 0)]

/-- The two accumulation dicts of the Neighborhood singleton:
`parcel_count` and `parcel_land_square_footage`, both mapping census tract
to a per-kind Counter. -/
structure NbState where
  parcelCount : List (String × Counter)
  parcelLand : List (String × Counter)
  deriving DecidableEq, Repr

/-- The empty accumulators of `Neighborhood.__init__`. -/
def nbInit : NbState := ⟨[], []⟩

/-- Outcome of one `Neighborhood.accumulate` call: success, a raised
`u.InputError` (the state still carries any `parcel_count` initialization
performed before the raise), or an uncaught exception. -/
inductive NbResult where
  | ok (st : NbState)
  | inputError (reason : String) (st : NbState)
  | uncaught (msg : String)
  deriving Repr

/-- The nested `count` helper (src/etl.py lines 403-405): increment the
parcel count and add the land area in the (tract, kind) buckets. -/
def nbCount (st : NbState) (tract kind : String) (area : Int) : NbState :=
  { parcelCount := upsertA st.parcelCount tract
      (cadd ((lookupA st.parcelCount tract).getD []) kind 1),
    parcelLand := upsertA st.parcelLand tract
      (cadd ((lookupA st.parcelLand tract).getD []) kind area) }

namespace Neighborhood

/-- Neighborhood.accumulate (src/etl.py lines 399-464), in source order:
`int()` on the PROPN and LUSEI codes outside any try/except (an uncaught
`ValueError` for a malformed code), zero-initialization of the tract's
`parcel_count` entry, the three rejection checks, the land-area parse
(`u.InputError` after a `pdb.set_trace`), the `self.propn_kinds[propn_code]`
subscript (an uncaught `KeyError` for an unmapped code), and the kind
dispatch into `count`. -/
def accumulate (cfg : NbConfig) (st : NbState) (row : TaxrollRow) : NbResult :=
  let censusTract := row.censusTract
  match pyParseInt row.propertyIndicatorCode with
  | none => .uncaught "ValueError: int() on PROPERTY INDICATOR CODE"
  | some propnCode =>
    match pyParseInt row.universalLandUseCode with
    | none => .uncaught "ValueError: int() on UNIVERSAL LAND USE CODE"
    | some luseiCode =>
      let st1 := if (lookupA st.parcelCount censusTract).isSome then st
                 else { st with parcelCount := upsertA st.parcelCount censusTract initTractCounter }
      if censusTract = "" then .inputError "missing census_tract" st1
      else if propnCode ∈ propn_skip then .inputError "PROPN code is to be skipped" st1
      else if luseiCode ∈ lusei_skip then .inputError "LUSEI code is to be skipped" st1
      else
        match pyParseInt row.landSquareFootage with
        | none => .inputError "LAND SQUARE FOOTAGE not an int" st1
        | some land =>
          match lookupA cfg.propnKinds propnCode with
          | none => .uncaught "KeyError: propn_kinds"
          | some propnKind =>
            let luseiKind := (lookupA cfg.luseiKinds luseiCode).getD "not special"
            match propnKind with
            | .residential => .ok (nbCount st1 censusTract "residential" land)
            | .commercial => .ok (nbCount st1 censusTract "commercial" land)
            | .servicePublic =>
              if luseiKind = "school" then .ok (nbCount st1 censusTract "school" land)
              else .ok (nbCount st1 censusTract "other" land)
            | .industrial => .ok (nbCount st1 censusTract "industrial" land)
            | .amusementRecreation =>
              if luseiKind = "park" then .ok (nbCount st1 censusTract "park" land)
              else .ok (nbCount st1 censusTract "other" land)
            | .exempt =>
              if luseiKind = "school" then .ok (nbCount st1 censusTract "school" land)
              else .ok (nbCount st1 censusTract "other" land)
            | .other => .ok (nbCount st1 censusTract "other" land)

end Neighborhood

/-- One emitted row of the `neighborhoods` table. -/
structure NeighborhoodRow where
  censusTract : String
  fracResidential : Rat
  fracCommercial : Rat
  fracIndustrial : Rat
  fracSchools : Rat
  fracParks : Rat
  fracOther : Rat
  deriving DecidableEq, Repr

/-- Exact rational division of two machine integers (Python float division
of the accumulated integer areas; exact here since no claim depends on
binary rounding). -/
def ratDiv (a b : Int) : Rat :=
  if 0 ≤ b then mkRat a b.toNat else mkRat (-a) (-b).toNat

/-- The sum of the six emitted fraction columns of a neighborhoods row. -/
def sumFractions (r : NeighborhoodRow) : Rat :=
  r.fracResidential + r.fracCommercial + r.fracIndustrial +
  r.fracSchools + r.fracParks + r.fracOther

/-- Neighborhood.create_table (src/etl.py lines 494-536): iterate
`parcel_land_square_footage` in insertion order; for each tract sum the
Counter's values; skip a tract with total 0; otherwise emit the six
fractions, each read with `.get(kind, 0.0)`.  The lookup keys are exactly
the source's: `"residential"`, `"commercial"`, `"industrial"`, `"schools"`,
`"parks"`, `"other"` (note the plural school/park keys, unlike the singular
keys written by `accumulate`). -/
def neighborhoodsTable (st : NbState) : List NeighborhoodRow :=
  st.parcelLand.filterMap (fun e =>
    let total := counterTotal e.2
    if total = 0 then none
    else some
      { censusTract := e.1,
        fracResidential := ratDiv (cget e.2 "residential") total,
        fracCommercial := ratDiv (cget e.2 "commercial") total,
        fracIndustrial := ratDiv (cget e.2 "industrial") total,
        fracSchools := ratDiv (cget e.2 "schools") total,
        fracParks := ratDiv (cget e.2 "parks") total,
        fracOther := ratDiv (cget e.2 "other") total })

/-- The per-parcel feature vector extracted by `Parcel.accumulate`. -/
structure ParcelFeatures where
  censusTract : Int
  propertyCity : String
  totalValueCalculated : Rat
  landSquareFootage : Rat
  livingSquareFeet : Rat
  effectiveYearBuilt : Rat
  bedrooms : Rat
  totalRooms : Rat
  totalBaths : Rat
  fireplaceNumber : Rat
  parkingSpaces : Rat
  hasPool : Rat
  unitsNumber : Rat
  deriving DecidableEq, Repr

/-- The nested `extract_positive_float` helper (src/etl.py lines 567-574):
parse as float, assert strictly positive; any failure raises
`u.InputError("invalid <field>", ...)`. -/
def extract_positive_float (fieldName value : String) : Except String Rat :=
  match pyParseFloat value with
  | some v => if 0 < v then .ok v else .error ("invalid " ++ fieldName)
  | none => .error ("invalid " ++ fieldName)

/-- The nested `extract_nonnegative_float` helper (src/etl.py lines
558-565): parse as float, assert nonnegative. -/
def extract_nonnegative_float (fieldName value : String) : Except String Rat :=
  match pyParseFloat value with
  | some v => if 0 ≤ v then .ok v else .error ("invalid " ++ fieldName)
  | none => .error ("invalid " ++ fieldName)

namespace Parcel

/-- The validation-and-extraction part of Parcel.accumulate (src/etl.py
lines 554-613), in source order: the SFR code check, APN resolution, census
tract integer parse, nonempty property city, the positive-float fields,
the nonnegative-float fields, the pool flag (`"Y"` maps to 1.0, anything
else to 0.0) and the units count.  Every failure raises `u.InputError`
with the source's reason. -/
def extract (sfrCode : String) (row : TaxrollRow) : Except String (Int × ParcelFeatures) := do
  if row.propertyIndicatorCode ≠ sfrCode then
    throw "not single family residence"
  let apn ← match best_apn row.apnFormatted row.apnUnformatted with
    | .ok apn => pure apn
    | .error _ => throw "invalid APN"
  let censusTract ← match pyParseInt row.censusTract with
    | some ct => pure ct
    | none => throw "invalid census tract"
  if row.propertyCity = "" then
    throw "invalid property_city"
  let totalValueCalculated ← extract_positive_float "TOTAL VALUE CALCULATED" row.totalValueCalculated
  let landSquareFootage ← extract_positive_float "LAND SQUARE FOOTAGE" row.landSquareFootage
  let livingSquareFeet ← extract_positive_float "LIVING SQUARE FEET" row.livingSquareFeet
  let effectiveYearBuilt ← extract_positive_float "EFFECTIVE YEAR BUILT" row.effectiveYearBuilt
  let bedrooms ← extract_positive_float "BEDROOMS" row.bedrooms
  let totalRooms ← extract_positive_float "TOTAL ROOMS" row.totalRooms
  let totalBaths ← extract_positive_float "TOTAL BATHS" row.totalBaths
  let fireplaceNumber ← extract_nonnegative_float "FIREPLACE NUMBER" row.fireplaceNumber
  let parkingSpaces ← extract_nonnegative_float "PARKING SPACES" row.parkingSpaces
  let hasPool : Rat := if row.poolFlag = "Y" then 1 else 0
  let unitsNumber ← extract_positive_float "UNITS NUMBER" row.unitsNumber
  return (apn, { censusTract, propertyCity := row.propertyCity, totalValueCalculated,
                 landSquareFootage, livingSquareFeet, effectiveYearBuilt, bedrooms,
                 totalRooms, totalBaths, fireplaceNumber, parkingSpaces, hasPool,
                 unitsNumber })

/-- `Parcel.extract` as an `Option`, the shape the read loop sees (a raised
`u.InputError` is caught and tallied). -/
def extractOpt (sfrCode : String) (row : TaxrollRow) : Option (Int × ParcelFeatures) :=
  (extract sfrCode row).toOption

/-- The evolution of `self.features` over the record stream: a record whose
extraction fails is skipped; an extracted record is written with
`self.features[apn] = {...}` (src/etl.py line 621) — an overwrite when the
apn is already present.  The duplicate-apn check (lines 615-619) only
prints and enters `pdb.set_trace()`; it neither raises nor stops the
assignment, so it does not alter this dict (see `dupTraps`). -/
def featuresRun (sfrCode : String) (rows : List TaxrollRow) : List (Int × ParcelFeatures) :=
  runUpsert (extractOpt sfrCode) rows

/-- The number of times the duplicate-apn branch (print "duplicate apn" +
`pdb.set_trace()`, src/etl.py lines 615-619) fires over the stream. -/
def dupTraps (sfrCode : String) (rows : List TaxrollRow) : Nat :=
  (rows.foldl (fun (st : List (Int × ParcelFeatures) × Nat) row =>
    match extractOpt sfrCode row with
    | some (apn, fv) =>
      (upsertA st.1 apn fv, if (lookupA st.1 apn).isSome then st.2 + 1 else st.2)
    | none => st) ([], 0)).2

end Parcel

/-- The joint state threaded through the `read_taxrolls` loop. -/
structure TaxrollState where
  nb : NbState
  features : List (Int × ParcelFeatures)
  deriving DecidableEq, Repr

/-- The record loop of `read_taxrolls` (src/etl.py lines 736-751): per row,
`neighborhood.accumulate(row)` then `parcel.accumulate(row)` inside one
`try` whose only handler is `except u.InputError` (tally and continue, the
parcel step skipped when the neighborhood step raises).  Any other
exception — the uncaught `ValueError` / `KeyError` cases of
`Neighborhood.accumulate` — escapes the loop and aborts `read_taxrolls`. -/
def read_taxrolls_loop (cfg : NbConfig) (sfrCode : String) :
    TaxrollState → List TaxrollRow → Except String TaxrollState
  | st, [] => .ok st
  | st, row :: rest =>
    match Neighborhood.accumulate cfg st.nb row with
    | .uncaught msg => .error msg
    | .inputError _ nb1 => read_taxrolls_loop cfg sfrCode { st with nb := nb1 } rest
    | .ok nb1 =>
      match Parcel.extract sfrCode row with
      | .error _ => read_taxrolls_loop cfg sfrCode { st with nb := nb1 } rest
      | .ok (apn, fv) =>
        read_taxrolls_loop cfg sfrCode
          { nb := nb1, features := upsertA st.features apn fv } rest

/-- A neighborhood kind configuration with concrete codes: PROPN 1 is
"Single Family Residence / Townhouse" (residential), PROPN 9 is
"Service (general public)", LUSEI 8 is "SCHOOL". -/
def c2cfg : NbConfig :=
  { propnKinds := [(1, .residential), (9, .servicePublic)],
    luseiKinds := [(8, "school")] }

/-- A taxroll record for tract 123456: one residential parcel of land area 1. -/
def c2row1 : TaxrollRow :=
  { censusTract := "123456", propertyIndicatorCode := "1",
    universalLandUseCode := "100", landSquareFootage := "1" }

/-- A taxroll record for tract 123456: one public-service school parcel of
land area 1. -/
def c2row2 : TaxrollRow :=
  { censusTract := "123456", propertyIndicatorCode := "9",
    universalLandUseCode := "8", landSquareFootage := "1" }

/-- A taxroll record for a second tract 999999 whose only parcel has land
area 0, so the tract's accumulated total area is zero. -/
def c2row3 : TaxrollRow :=
  { censusTract := "999999", propertyIndicatorCode := "1",
    universalLandUseCode := "100", landSquareFootage := "0" }

/-- A taxroll record whose PROPERTY INDICATOR CODE is not parseable as an
integer. -/
def c5row : TaxrollRow :=
  { censusTract := "123456", propertyIndicatorCode := "abc",
    universalLandUseCode := "100", landSquareFootage := "1" }

/-- A fully valid SFR taxroll record with APN 77001 and 3 bedrooms. -/
def c7row1 : TaxrollRow :=
  { censusTract := "123456", propertyIndicatorCode := "1",
    universalLandUseCode := "100", landSquareFootage := "5000",
    apnFormatted := "", apnUnformatted := "77001", propertyCity := "LA",
    totalValueCalculated := "100000", livingSquareFeet := "1500",
    effectiveYearBuilt := "1990", bedrooms := "3", totalRooms := "6",
    totalBaths := "2", fireplaceNumber := "0", parkingSpaces := "2",
    poolFlag := "N", unitsNumber := "1" }

/-- A second fully valid SFR taxroll record with the same APN 77001 but 4
bedrooms. -/
def c7row2 : TaxrollRow :=
  { c7row1 with bedrooms := "4" }

/-- The feature vector `Parcel.accumulate` extracts from `c7row2`. -/
def c7features2 : ParcelFeatures :=
  { censusTract := 123456, propertyCity := "LA", totalValueCalculated := 100000,
    landSquareFootage := 5000, livingSquareFeet := 1500,
    effectiveYearBuilt := 1990, bedrooms := 4, totalRooms := 6,
    totalBaths := 2, fireplaceNumber := 0, parkingSpaces := 2,
    hasPool := 0, unitsNumber := 1 }

/-! ## etl.py: Census aggregator -/

/-- The fields of a raw census record read by `Census.accumulate`: the
geographic identifier, the twelve commute-time bucket counts, the median
household income and the occupied-housing counts. -/
structure CensusRow where
  geoId2 : String := ""
  p031003 : String := ""
  p031004 : String := ""
  p031005 : String := ""
  p031006 : String := ""
  p031007 : String := ""
  p031008 : String := ""
  p031009 : String := ""
  p031010 : String := ""
  p031011 : String := ""
  p031012 : String := ""
  p031013 : String := ""
  p031014 : String := ""
  p053001 : String := ""
  h007001 : String := ""
  h007002 : String := ""
  deriving Repr

/-- The `self.mean_travel_times` dict of `Census.__init__` (src/etl.py
lines 776-789), in insertion order; `P031014` (110.0) is the open-ended
"90 minutes or more" bucket. -/
def mean_travel_times : List (String × Rat) :=
  [("P031003", mkRat 5 2), ("P031004", 7), ("P031005", 12), ("P031006", 17),
   ("P031007", 22), ("P031008", 27), ("P031009", 32), ("P031010", 37),
   ("P031011", 42), ("P031012", 47), ("P031013", mkRat 145 2), ("P031014", 110)]

/-- `row[column_name]` for the bucket columns. -/
def censusBucketValue (row : CensusRow) (name : String) : String :=
  if name = "P031003" then row.p031003
  else if name = "P031004" then row.p031004
  else if name = "P031005" then row.p031005
  else if name = "P031006" then row.p031006
  else if name = "P031007" then row.p031007
  else if name = "P031008" then row.p031008
  else if name = "P031009" then row.p031009
  else if name = "P031010" then row.p031010
  else if name = "P031011" then row.p031011
  else if name = "P031012" then row.p031012
  else if name = "P031013" then row.p031013
  else if name = "P031014" then row.p031014
  else ""

/-- The three derived statistics stored per tract. -/
structure CensusStats where
  meanCommuteTimeMinutes : Rat
  medianHouseholdIncome : Rat
  fractionOwnerOccupied : Rat
  deriving DecidableEq, Repr

namespace Census

/-- The per-bucket loop of `Census.accumulate` (src/etl.py lines 802-811):
each bucket count must parse as int (else `u.InputError`);
`n_in_census_tract += n` accumulates, but line 811 reads
`weighted_sum = n * column_mean_travel_time` — an assignment, not `+=` —
so the weighted sum leaving the loop is only the LAST bucket's
contribution.  The `ws` parameter mirrors the loop variable and is
overwritten, exactly as in the source. -/
def commuteLoop (row : CensusRow) :
    List (String × Rat) → Int → Rat → Except String (Int × Rat)
  | [], total, ws => .ok (total, ws)
  | (name, t) :: rest, total, _ws =>
    match pyParseInt (censusBucketValue row name) with
    | none => .error ("non-int " ++ name)
    | some n => commuteLoop row rest (total + n) ((n : Rat) * t)

/-- Census.accumulate (src/etl.py lines 791-844): extract the 6-character
tract code from `GEO_ID2[4:]` (an `AssertionError` on the length becomes
`u.InputError` after a `pdb.set_trace`), run the commute-bucket loop,
reject zero commuters, divide, parse the income and the occupancy counts,
reject zero occupied units, and produce the three statistics the method
assigns into `self.features[census_tract]`. -/
def accumulate (row : CensusRow) : Except String (String × CensusStats) := do
  let censusTract := pySliceFrom row.geoId2 4
  if censusTract.length ≠ 6 then
    throw "invalid census tract"
  let (nInCensusTract, weightedSum) ← commuteLoop row mean_travel_times 0 0
  if nInCensusTract = 0 then
    throw "no commuters in census tract"
  let meanCommuteTimeMinutes := weightedSum / (nInCensusTract : Rat)
  let medianHouseholdIncome ← match pyParseFloat row.p053001 with
    | some v => pure v
    | none => throw "non-float median household income"
  let total ← match pyParseFloat row.h007001 with
    | some v => pure v
    | none => throw "non-float in total occupied"
  let owner ← match pyParseFloat row.h007002 with
    | some v => pure v
    | none => throw "non-float in owner occupied"
  if total = 0 then
    throw "zero residences occupied"
  let fractionOwnerOccupied := owner / total
  return (censusTract, { meanCommuteTimeMinutes, medianHouseholdIncome,
                         fractionOwnerOccupied })

/-- `Census.accumulate` as the read loop sees it: a raised `u.InputError`
is caught, tallied and skipped (src/etl.py lines 891-896). -/
def extractOpt (row : CensusRow) : Option (String × CensusStats) :=
  (accumulate row).toOption

/-- The evolution of `self.features` over the census record stream: each
accepted record assigns the three statistics under its tract key
(`self.features[census_tract][...] = ...`, src/etl.py lines 842-844),
overwriting any earlier record with the same tract; `create_table`
(lines 850-872) then emits exactly one row per entry of this dict. -/
def run (rows : List CensusRow) : List (String × CensusStats) :=
  runUpsert extractOpt rows

end Census

/-- A census record with one commuter in the first bucket (2.5 minutes) and
one in the last (110.0 minutes), median income 50000, and 1 of 2 occupied
units owner-occupied. -/
def c3row : CensusRow :=
  { geoId2 := "0600123456", p031003 := "1", p031004 := "0", p031005 := "0",
    p031006 := "0", p031007 := "0", p031008 := "0", p031009 := "0",
    p031010 := "0", p031011 := "0", p031012 := "0", p031013 := "0",
    p031014 := "1", p053001 := "50000", h007001 := "2", h007002 := "1" }

/-- A census record with zero commuters in every bucket. -/
def c3zero : CensusRow :=
  { geoId2 := "0600654321", p031003 := "0", p031004 := "0", p031005 := "0",
    p031006 := "0", p031007 := "0", p031008 := "0", p031009 := "0",
    p031010 := "0", p031011 := "0", p031012 := "0", p031013 := "0",
    p031014 := "0", p053001 := "50000", h007001 := "2", h007002 := "1" }

/-! ## etl.py: stratified-split period iteration -/

/-- The while loop of `next_year_month` (src/etl.py lines 1010-1018),
with explicit fuel standing in for the unbounded `while True`: yield
`(year, month)`, advance one calendar month, and break only when
`year == last_year and month > last_month`. -/
def ymLoop : Nat → Nat → Nat → Nat → Nat → List (Nat × Nat)
  | 0, _, _, _, _ => []
  | fuel + 1, year, month, lastYear, lastMonth =>
    (year, month) ::
      (let yearA := if month = 12 then year + 1 else year
       let monthA := if month = 12 then 1 else month + 1
       if yearA = lastYear && monthA > lastMonth then []
       else ymLoop fuel yearA monthA lastYear lastMonth)

/-- next_year_month (src/etl.py lines 1002-1018): lines 1004-1005 unpack
`u.as_date(config['date_census_became_known'])` and
`u.as_date(config['date_last_transaction'])` as pairs; `utility.as_date`
returns a bare `datetime.date`, so the unpack raises `TypeError` (see
`as_date_unpack2`) on the generator's first step, before any period is
yielded — `none` models the escaped exception aborting
`create_transactions`. -/
def next_year_month (dateCensusStr dateLastStr : String) (fuel : Nat) :
    Option (List (Nat × Nat)) :=
  match as_date_unpack2 dateCensusStr with
  | none => none
  | some (d0, _err1) =>
    match as_date_unpack2 dateLastStr with
    | none => none
    | some (dl, _err2) => some (ymLoop fuel d0.year d0.month dl.year dl.month)

/-! ## Theorems: C9 -/

/-- C9: parcel-identifier resolution prefers the unformatted value with
space, underscore and hyphen stripped, parsed as an integer; on parse
failure it falls back to the formatted value with hyphens stripped; when
both fail it reports "no identifier present" exactly when both inputs are
empty and "unparseable identifier" otherwise; in particular
resolve("123-456", "123456") = 123456 and resolve("", "12_34") = 1234. -/
theorem C9_identifier_resolution :
    best_apn "123-456" "123456" = .ok 123456
    ∧ best_apn "" "12_34" = .ok 1234
    ∧ best_apn "" "" = .error .noIdentifierPresent
    ∧ best_apn "abc" "xyz" = .error .unparseable
    ∧ (∀ f u n, pyParseInt (stripApnSeps u) = some n → best_apn f u = .ok n)
    ∧ (∀ f u n, pyParseInt (stripApnSeps u) = none →
        pyParseInt (pyRemove f '-') = some n → best_apn f u = .ok n)
    ∧ (∀ f u, pyParseInt (stripApnSeps u) = none →
        pyParseInt (pyRemove f '-') = none →
        best_apn f u = .error (if f = "" && u = "" then .noIdentifierPresent
                               else .unparseable)) := by
  refine ⟨by decide, by decide, by decide, by decide, ?_, ?_, ?_⟩
  · intro f u n h
    simp [best_apn, h]
  · intro f u n h1 h2
    simp [best_apn, h1, h2]
  · intro f u h1 h2
    by_cases he : f = "" && u = ""
    · simp [best_apn, h1, h2, he]
    · simp [best_apn, h1, h2, he]

/-- C9 witness: the quantified clauses applied at concrete inputs. -/
theorem C9_identifier_resolution_witness :
    pyParseInt (stripApnSeps "77 1") = some 771
    ∧ best_apn "5-5" "77 1" = .ok 771 :=
  ⟨by decide, C9_identifier_resolution.2.2.2.2.1 "5-5" "77 1" 771 (by decide)⟩

/-! ## Association-list lemmas -/

theorem oor_none_right {α : Type} (a : Option α) : oor a none = a := by
  cases a <;> rfl

theorem oor_some {α : Type} (a : α) (b : Option α) : oor (some a) b = some a := rfl

theorem oor_none_left {α : Type} (b : Option α) : oor none b = b := rfl

theorem lookupA_upsertA_self {κ ν : Type} [DecidableEq κ] (l : List (κ × ν)) (k : κ) (v : ν) :
    lookupA (upsertA l k v) k = some v := by
  induction l with
  | nil => simp [upsertA, lookupA]
  | cons e rest ih =>
    by_cases h : e.1 = k
    · simp [upsertA, h, lookupA]
    · simp [upsertA, h, lookupA, ih]

theorem lookupA_upsertA_ne {κ ν : Type} [DecidableEq κ] (l : List (κ × ν)) (k k' : κ) (v : ν)
    (h : k' ≠ k) : lookupA (upsertA l k v) k' = lookupA l k' := by
  have h2 : ¬(k = k') := fun hc => h hc.symm
  induction l with
  | nil => simp [upsertA, lookupA, h2]
  | cons e rest ih =>
    obtain ⟨ek, ev⟩ := e
    by_cases he : ek = k
    · subst he
      simp [upsertA, lookupA, h2]
    · simp [upsertA, he, lookupA, ih]

theorem lookupA_eq_none_iff {κ ν : Type} [DecidableEq κ] (l : List (κ × ν)) (k : κ) :
    lookupA l k = none ↔ k ∉ keysA l := by
  induction l with
  | nil => simp [lookupA, keysA]
  | cons e rest ih =>
    obtain ⟨ek, ev⟩ := e
    by_cases h : ek = k
    · subst h
      simp [lookupA, keysA]
    · have h2 : ¬(k = ek) := fun hc => h hc.symm
      rw [show keysA ((ek, ev) :: rest) = ek :: keysA rest from rfl, List.mem_cons]
      simp [lookupA, h, h2, ih]

theorem keysA_upsertA_of_none {κ ν : Type} [DecidableEq κ] (l : List (κ × ν)) (k : κ) (v : ν)
    (h : lookupA l k = none) : keysA (upsertA l k v) = keysA l ++ [k] := by
  induction l with
  | nil => simp [upsertA, keysA]
  | cons e rest ih =>
    obtain ⟨ek, ev⟩ := e
    by_cases he : ek = k
    · rw [show lookupA ((ek, ev) :: rest) k = if ek = k then some ev else lookupA rest k
          from rfl, if_pos he] at h
      cases h
    · rw [show lookupA ((ek, ev) :: rest) k = if ek = k then some ev else lookupA rest k
          from rfl, if_neg he] at h
      have ih2 := ih h
      rw [show upsertA ((ek, ev) :: rest) k v =
            if ek = k then (ek, v) :: rest else (ek, ev) :: upsertA rest k v from rfl,
          if_neg he]
      rw [show keysA ((ek, ev) :: upsertA rest k v) = ek :: keysA (upsertA rest k v) from rfl,
          ih2]
      rfl

theorem filter_eq_nil_of_not_mem_keys {κ ν : Type} [DecidableEq κ] (l : List (κ × ν)) (k : κ)
    (h : k ∉ keysA l) : l.filter (fun e => e.1 = k) = [] := by
  induction l with
  | nil => rfl
  | cons e rest ih =>
    obtain ⟨ek, ev⟩ := e
    rw [show keysA ((ek, ev) :: rest) = ek :: keysA rest from rfl, List.mem_cons] at h
    push_neg at h
    have h1 : ¬(ek = k) := fun hc => h.1 hc.symm
    rw [List.filter_cons]
    simp [h1, ih h.2]

/-! ## Deduplication lemmas and theorems: C1, C4 -/

theorem dedupStep_eq (sa : SaleAmounts) (r : DeedKey × Rat) :
    dedupStep sa r = match lookupA sa r.1 with
      | some _ => sa
      | none => upsertA sa r.1 r.2 := by
  unfold dedupStep deedRecordDedup
  cases hl : lookupA sa r.1 with
  | none => rfl
  | some existing => by_cases he : existing ≠ r.2 <;> simp [he]

theorem lookupA_dedup_foldl (recs : List (DeedKey × Rat)) :
    ∀ (sa : SaleAmounts) (k : DeedKey),
      lookupA (recs.foldl dedupStep sa) k = oor (lookupA sa k) (firstOf recs k) := by
  induction recs with
  | nil =>
    intro sa k
    simp [firstOf, oor_none_right]
  | cons r rest ih =>
    intro sa k
    obtain ⟨rk, ra⟩ := r
    rw [List.foldl_cons, ih, dedupStep_eq]
    cases hl : lookupA sa rk with
    | some b =>
      by_cases hk : rk = k
      · subst hk
        simp [firstOf, hl, oor_some]
      · simp [firstOf, hk]
    | none =>
      by_cases hk : rk = k
      · subst hk
        rw [lookupA_upsertA_self]
        simp [firstOf, hl, oor_some, oor_none_left]
      · rw [lookupA_upsertA_ne _ _ _ _ (fun hc => hk hc.symm)]
        simp [firstOf, hk]

theorem nodup_keysA_dedup_foldl (recs : List (DeedKey × Rat)) :
    ∀ sa : SaleAmounts, (keysA sa).Nodup → (keysA (recs.foldl dedupStep sa)).Nodup := by
  induction recs with
  | nil => intro sa h; exact h
  | cons r rest ih =>
    intro sa h
    rw [List.foldl_cons]
    apply ih
    rw [dedupStep_eq]
    cases hl : lookupA sa r.1 with
    | some b => exact h
    | none =>
      rw [keysA_upsertA_of_none _ _ _ hl]
      have hk : r.1 ∉ keysA sa := (lookupA_eq_none_iff sa r.1).mp hl
      simp [List.nodup_append, h, hk]

theorem deedRowsFor_eq_toList (sa : SaleAmounts) (k : DeedKey)
    (h : (keysA sa).Nodup) : deedRowsFor k sa = (lookupA sa k).toList := by
  induction sa with
  | nil => rfl
  | cons e rest ih =>
    obtain ⟨ek, ev⟩ := e
    rw [show keysA ((ek, ev) :: rest) = ek :: keysA rest from rfl, List.nodup_cons] at h
    by_cases hk : ek = k
    · have hfil : rest.filter (fun e => e.1 = k) = [] :=
        filter_eq_nil_of_not_mem_keys rest k (hk ▸ h.1)
      unfold deedRowsFor
      rw [List.filter_cons]
      simp [hk, hfil, lookupA]
    · unfold deedRowsFor
      rw [List.filter_cons]
      have ih2 := ih h.2
      unfold deedRowsFor at ih2
      simp [hk, lookupA, ih2]

/-- C1 counterexample: two records reaching the deduplication step with the
same (parcel_id, sale_date) key and differing sale amounts.  The claim says
the key is excluded entirely (zero output rows); the code keeps the first
accepted amount, so the finalized deeds output has exactly one row for the
key, carrying 100. -/
theorem C1_counterexample :
    deedRowsFor (123, ⟨2004, 5, 17⟩)
        (dedupRun [((123, ⟨2004, 5, 17⟩), 100), ((123, ⟨2004, 5, 17⟩), 200)]) = [100]
    ∧ deedRowsFor (123, ⟨2004, 5, 17⟩)
        (dedupRun [((123, ⟨2004, 5, 17⟩), 100), ((123, ⟨2004, 5, 17⟩), 200)]) ≠ [] :=
  ⟨by decide, by decide⟩

/-- C1 (amended): for every stream of records reaching the deduplication
step, the finalized deeds output has exactly one row for each key that
occurs in the stream, carrying the amount of the first record with that
key; later records with the same key are kept only as an exact-duplicate
no-op (same amount) or rejected with the "multiple deed sale amounts" tally
(different amount), never written.  In particular identical duplicates
yield one row, and conflicting duplicates yield one row with the first
amount, not zero rows. -/
theorem C1_dedup_keeps_first_amount :
    ∀ (recs : List (DeedKey × Rat)) (k : DeedKey),
      deedRowsFor k (dedupRun recs) = (firstOf recs k).toList := by
  intro recs k
  have hn : (keysA (dedupRun recs)).Nodup :=
    nodup_keysA_dedup_foldl recs [] (by simp [keysA])
  rw [deedRowsFor_eq_toList _ _ hn]
  rw [show dedupRun recs = recs.foldl dedupStep [] from rfl, lookupA_dedup_foldl]
  rfl

/-- C4: the code, evaluated at a record that passes all ten validation
predicates of spec section 4.2 (first conjunct, via the spec-modelled
predicate chain).  `Deed.accumulate` nevertheless rejects the record with
`u.InputError("invalid SALE DATE")`, because line 199 tuple-unpacks the
bare `datetime.date` returned by `utility.as_date`, raising `TypeError`
inside the `except Exception` handler.  The record is not accumulated and
the tallied reason does not correspond to any failing predicate. -/
theorem C4_code_evaluation :
    specDeedPassesAllTen c4cfg c4row = true
    ∧ Deed.accumulate c4cfg [] c4row = .inputError "invalid SALE DATE" :=
  ⟨by decide, by decide⟩

/-! ## Code-registry theorems: C6 -/

/-- C6 counterexample: two reference rows with the same (code_table,
description) and differing values.  The claim says the second insert fails
with a ConflictError that halts the registry build; in the code the second
triple differs from the first in its value component, so it does not
violate the `PRIMARY KEY (code_table, value, description)` constraint and
is inserted silently — the build ends successfully with both conflicting
rows in the table and zero debugger traps. -/
theorem C6_counterexample :
    read_codes_run "codes_taxrolls"
        [⟨"T", "1", "d"⟩, ⟨"T", "2", "d"⟩]
      = .ok ([("T", "1", "d"), ("T", "2", "d")], 0) := by
  decide

/-- C6 (amended): an insert that exactly duplicates an existing entry is
silently ignored, but an insert whose value differs from the
already-registered value for the same (code_table, description) does not
fail at all — it is inserted as an additional row and the registry build
for the table continues (no ConflictError exists in the source; the
corruption surfaces only on a later `lookup_code`, which then raises
`u.NotUnique`). -/
theorem C6_conflicting_value_inserted (ct v w d : String) (hne : v ≠ w) :
    read_codes_run "codes_taxrolls"
        [⟨ct, v, d⟩, ⟨ct, v, d⟩, ⟨ct, w, d⟩]
      = .ok ([(ct, v, d), (ct, w, d)], 0)
    ∧ lookup_code [(ct, v, d), (ct, w, d)] ct d = .error "NotUnique" := by
  have h1 : read_codes_step "codes_taxrolls" ([], 0) ⟨ct, v, d⟩ = .ok ([(ct, v, d)], 0) := by
    simp [read_codes_step, skip_code]
  have h2 : read_codes_step "codes_taxrolls" ([(ct, v, d)], 0) ⟨ct, v, d⟩
      = .ok ([(ct, v, d)], 0) := by
    simp [read_codes_step, skip_code, lookup_code]
  have h3 : read_codes_step "codes_taxrolls" ([(ct, v, d)], 0) ⟨ct, w, d⟩
      = .ok ([(ct, v, d), (ct, w, d)], 0) := by
    simp [read_codes_step, skip_code, Prod.ext_iff]
    intro hw
    exact absurd hw.symm hne
  constructor
  · rw [read_codes_run]
    simp only [read_codes_loop, h1, h2, h3]
  · simp [lookup_code]

/-- C6 witness: the amended behavior at concrete values. -/
theorem C6_conflicting_value_inserted_witness :
    read_codes_run "codes_taxrolls"
        [⟨"T", "1", "d"⟩, ⟨"T", "1", "d"⟩, ⟨"T", "5", "d"⟩]
      = .ok ([("T", "1", "d"), ("T", "5", "d")], 0)
    ∧ lookup_code [("T", "1", "d"), ("T", "5", "d")] "T" "d" = .error "NotUnique" :=
  C6_conflicting_value_inserted "T" "1" "5" "d" (by decide)

/-! ## Fold-upsert lemmas (shared by the parcel and census runs) -/

theorem keysA_upsertA_of_some {κ ν : Type} [DecidableEq κ] (l : List (κ × ν)) (k : κ) (v b : ν)
    (h : lookupA l k = some b) : keysA (upsertA l k v) = keysA l := by
  induction l with
  | nil => cases h
  | cons e rest ih =>
    obtain ⟨ek, ev⟩ := e
    by_cases he : ek = k
    · simp [upsertA, he, keysA]
    · rw [show lookupA ((ek, ev) :: rest) k = if ek = k then some ev else lookupA rest k
          from rfl, if_neg he] at h
      have ih2 := ih h
      unfold keysA at ih2
      simp [upsertA, he, keysA, ih2]

theorem nodup_keysA_upsertA {κ ν : Type} [DecidableEq κ] (l : List (κ × ν)) (k : κ) (v : ν)
    (h : (keysA l).Nodup) : (keysA (upsertA l k v)).Nodup := by
  cases hl : lookupA l k with
  | some b =>
    rw [keysA_upsertA_of_some l k v b hl]
    exact h
  | none =>
    rw [keysA_upsertA_of_none l k v hl]
    have hk := (lookupA_eq_none_iff l k).mp hl
    simp [List.nodup_append, h, hk]

theorem lookupA_upsert_foldl {ρ κ ν : Type} [DecidableEq κ] (f : ρ → Option (κ × ν))
    (rows : List ρ) :
    ∀ (init : List (κ × ν)) (k : κ),
      lookupA (rows.foldl (fun st r => match f r with
        | some (k, v) => upsertA st k v
        | none => st) init) k
      = oor (lastOf (rows.filterMap f) k) (lookupA init k) := by
  induction rows with
  | nil =>
    intro init k
    rfl
  | cons r rest ih =>
    intro init k
    rw [List.foldl_cons]
    cases hf : f r with
    | none =>
      simp only [hf, List.filterMap_cons]
      exact ih init k
    | some kv =>
      obtain ⟨k', v⟩ := kv
      simp only [hf, List.filterMap_cons]
      rw [ih]
      by_cases hk : k' = k
      · subst hk
        rw [lookupA_upsertA_self]
        cases hL : lastOf (rest.filterMap f) k' <;> simp [lastOf, oor, hL]
      · rw [lookupA_upsertA_ne _ _ _ _ (fun hc => hk hc.symm)]
        simp [lastOf, oor_none_right, hk]

theorem nodup_keysA_upsert_foldl {ρ κ ν : Type} [DecidableEq κ] (f : ρ → Option (κ × ν))
    (rows : List ρ) :
    ∀ init : List (κ × ν), (keysA init).Nodup →
      (keysA (rows.foldl (fun st r => match f r with
        | some (k, v) => upsertA st k v
        | none => st) init)).Nodup := by
  induction rows with
  | nil => intro init h; exact h
  | cons r rest ih =>
    intro init h
    rw [List.foldl_cons]
    apply ih
    cases hf : f r with
    | none => simpa [hf] using h
    | some kv =>
      obtain ⟨k', v⟩ := kv
      simpa [hf] using nodup_keysA_upsertA init k' v h

theorem lookupA_runUpsert {ρ κ ν : Type} [DecidableEq κ] (f : ρ → Option (κ × ν))
    (rows : List ρ) (k : κ) :
    lookupA (runUpsert f rows) k = lastOf (rows.filterMap f) k := by
  unfold runUpsert
  rw [lookupA_upsert_foldl]
  exact oor_none_right _

theorem nodup_keysA_runUpsert {ρ κ ν : Type} [DecidableEq κ] (f : ρ → Option (κ × ν))
    (rows : List ρ) : (keysA (runUpsert f rows)).Nodup := by
  unfold runUpsert
  exact nodup_keysA_upsert_foldl f rows [] (by simp [keysA])

/-! ## Neighborhood / Parcel theorems: C2, C5, C7 -/

/-- C2: the code evaluated at a tract holding one residential parcel of
area 1 and one school parcel of area 1 (plus a second tract whose only
parcel has area 0).  `accumulate` files the school area under the key
"school", but `create_table` reads the key "schools" (and "parks"), so the
emitted fractions are (1/2, 0, 0, 0, 0, 0): their sum is 1/2, off from 1.0
by far more than the 1e-9 tolerance.  The zero-area tract 999999 emits no
row, as the claim says. -/
theorem C2_code_evaluation :
    (read_taxrolls_loop c2cfg "1" ⟨nbInit, []⟩ [c2row1, c2row2, c2row3]).map
        (fun st => neighborhoodsTable st.nb)
      = .ok [⟨"123456", mkRat 1 2, 0, 0, 0, 0, 0⟩]
    ∧ sumFractions ⟨"123456", mkRat 1 2, 0, 0, 0, 0, 0⟩ = mkRat 1 2
    ∧ ¬((1 : Rat) - sumFractions ⟨"123456", mkRat 1 2, 0, 0, 0, 0, 0⟩
          ≤ mkRat 1 1000000000) := by
  have hsum : sumFractions ⟨"123456", mkRat 1 2, 0, 0, 0, 0, 0⟩ = mkRat 1 2 := by
    simp [sumFractions]
  refine ⟨by decide, hsum, ?_⟩
  rw [hsum, Rat.mkRat_eq_div, Rat.mkRat_eq_div]
  norm_num

/-- C5: the code evaluated at a taxroll record whose PROPERTY INDICATOR
CODE is not an integer.  `Neighborhood.accumulate` evaluates
`int(row['PROPERTY INDICATOR CODE'])` outside any try/except, the raised
`ValueError` is not `u.InputError`, and the read loop's only handler is
`except u.InputError` — so the exception propagates out of the stage-level
read loop instead of being tallied. -/
theorem C5_code_evaluation :
    read_taxrolls_loop c2cfg "1" ⟨nbInit, []⟩ [c5row]
      = .error "ValueError: int() on PROPERTY INDICATOR CODE" := by
  decide

/-- C7 counterexample: two fully valid taxroll records with the same parcel
identifier 77001 (3 bedrooms, then 4 bedrooms).  The claim says a
parcel_id seen twice is a hard integrity fault that aborts the run and
neither record is kept; the code only prints and enters a `pdb.set_trace`
breakpoint (one trap counted) and then executes
`self.features[apn] = {...}`, so processing continues and the finalized
parcels table holds exactly the later record. -/
theorem C7_counterexample :
    Parcel.featuresRun "1" [c7row1, c7row2] = [(77001, c7features2)]
    ∧ Parcel.dupTraps "1" [c7row1, c7row2] = 1 :=
  ⟨by decide, by decide⟩

/-- C7 (amended): a duplicated parcel_id triggers the debugger breakpoint
(operator attention) and then the later record silently overwrites the
earlier one: for every record stream, the finalized parcels table has one
row per distinct extracted apn, holding the feature vector of the last
record whose extraction succeeded for that apn. -/
theorem C7_last_record_overwrites :
    ∀ (sfrCode : String) (rows : List TaxrollRow) (apn : Int),
      lookupA (Parcel.featuresRun sfrCode rows) apn
        = lastOf (rows.filterMap (Parcel.extractOpt sfrCode)) apn
      ∧ (keysA (Parcel.featuresRun sfrCode rows)).Nodup := by
  intro sfrCode rows apn
  exact ⟨lookupA_runUpsert _ rows apn, nodup_keysA_runUpsert _ rows⟩

/-! ## Census and period-iteration theorems: C3, C10, C8 -/

/-- C3: the code evaluated at a tract with one commuter in the 2.5-minute
bucket and one in the 110.0-minute bucket.  The emitted mean commute time
is 55 = (1 * 110.0) / 2 — only the last bucket contributes, because line
811 assigns `weighted_sum = n * t` instead of accumulating — whereas the
count-weighted average over the buckets is (1 * 2.5 + 1 * 110.0) / 2 =
56.25.  A tract with zero commuters in every bucket is rejected and emits
no row, as the claim says. -/
theorem C3_code_evaluation :
    Census.accumulate c3row = .ok ("123456", ⟨55, 50000, mkRat 1 2⟩)
    ∧ ((1 : Rat) * mkRat 5 2 + (1 : Rat) * 110) / ((1 : Rat) + 1) = mkRat 225 4
    ∧ (55 : Rat) ≠ mkRat 225 4
    ∧ Census.accumulate c3zero = .error "no commuters in census tract" :=
  ⟨by decide, by decide, by decide, by decide⟩

/-- C10: for every census record stream, the finalized census table has at
most one row per extracted 6-character tract code (its keys are without
duplicates), and the row of a tract carries exactly the statistics of the
last accepted record with that tract code — earlier accepted records for
the tract are silently overwritten. -/
theorem C10_census_last_accepted_wins :
    ∀ (rows : List CensusRow) (tract : String),
      (keysA (Census.run rows)).Nodup
      ∧ lookupA (Census.run rows) tract
          = lastOf (rows.filterMap Census.extractOpt) tract := by
  intro rows tract
  exact ⟨nodup_keysA_runUpsert _ rows, lookupA_runUpsert _ rows tract⟩

/-- C8: the code evaluated at a census-known date 2003-10-01 and a
last-transaction date 2003-12-31 (census before last, as the claim
requires).  First conjunct: the period generator crashes before yielding
anything, because it tuple-unpacks the bare date `utility.as_date`
returns.  Remaining conjuncts: even granting parsed dates, with the last
month of December the loop's break test `year == last_year and month > 12`
can never fire, so the iteration does not terminate (100 periods under
fuel 100 instead of the three claimed months); with a non-December last
month (here 2004-02) it does yield exactly the claimed months. -/
theorem C8_code_evaluation :
    next_year_month "2003-10-01" "2003-12-31" 10000 = none
    ∧ (ymLoop 100 2003 10 2003 12).length = 100
    ∧ ymLoop 100 2003 10 2003 12 ≠ [(2003, 10), (2003, 11), (2003, 12)]
    ∧ ymLoop 100 2003 10 2004 2
        = [(2003, 10), (2003, 11), (2003, 12), (2004, 1), (2004, 2)] :=
  ⟨rfl, by decide, by decide, by decide⟩
